/-
  Verification of the clinic-management application (src/app.py) against its
  natural-language specification.

  The application is shallowly embedded: the two SQLAlchemy models become Lean
  structures, the database session becomes an explicit `Store` value, the Flask
  request handlers become pure functions from a store, a session and the request
  data to a result (response, new store, flash messages, new session).  Sources
  of nondeterminism in the original (uuid4 patient ids, utcnow timestamps,
  bcrypt hashing and checking) are passed in as explicit parameters.
-/
import Mathlib

namespace Clinic

/-- Doctor model (src/app.py lines 26-33): integer primary key, unique non-null
    username, non-null password_hash, optional full_name and specialty,
    created_at timestamp (modelled as a Nat). -/
structure Doctor where
  id : Nat
  username : String
  password_hash : String
  full_name : Option String
  specialty : Option String
  created_at : Nat
deriving Repr, DecidableEq

/-- Patient model (src/app.py lines 35-41): integer primary key, public
    patient_id token, non-null name, notes, created_at, and doctor_id.  The
    doctor_id column (line 41) declares a ForeignKey but no nullable=False, so
    it is nullable at the schema level: it is an `Option Nat` here. -/
structure Patient where
  id : Nat
  patient_id : String
  name : String
  notes : String
  created_at : Nat
  doctor_id : Option Nat
deriving Repr, DecidableEq

/-- The persistent store: the rows of the two tables, in insertion order. -/
structure Store where
  doctors : List Doctor
  patients : List Patient
deriving Repr, DecidableEq

/-- Row-level NOT NULL acceptance for a Patient insert, as declared by the
    model columns in src/app.py: `name` (line 38) carries nullable=False, so a
    null name is rejected; `doctor_id` (line 41) declares no NOT NULL
    constraint, so a null doctor_id passes the storage checks. -/
def patientRowOk (name : Option String) (doctorId : Option Nat) : Bool :=
  name.isSome

/-- HTTP method of a request. -/
inductive Method where
  | get
  | post
deriving Repr, DecidableEq

/-- A submitted form: ordered key/value pairs. -/
abbrev Form := List (String × String)

/-- `request.form[k]` lookup: first value bound to key `k`, if any. -/
def formGet (f : Form) (k : String) : Option String :=
  (f.find? (fun kv => kv.1 == k)).map (fun kv => kv.2)

/-- Pages the handlers can render (render_template calls in src/app.py). -/
inductive Page where
  | loginPage
  | dashboardPage (doctor : Doctor) (roster : Option (List Doctor))
  | patientsPage (patients : List Patient)
  | addDoctorPage (doctors : List Doctor)
deriving Repr, DecidableEq

/-- A handler's HTTP response: a redirect to an endpoint, a rendered page, or
    the 400 error Flask produces when `request.form[k]` raises KeyError. -/
inductive Response where
  | redirect (endpoint : String)
  | render (page : Page)
  | badRequest (missingKey : String)
deriving Repr, DecidableEq

/-- Result of one request: the response, the store after the request, the
    flash messages emitted, and the session after the request. -/
structure HResult where
  response : Response
  store : Store
  flashes : List String
  sess : Option Nat
deriving Repr, DecidableEq

/-- flask_login current_user via load_user (src/app.py lines 43-45):
    resolve the session's bound id to a Doctor row. -/
def currentUser (s : Store) (sess : Option Nat) : Option Doctor :=
  sess.bind (fun i => s.doctors.find? (fun d => d.id == i))

/-- The flash message for a failed login (src/app.py line 56). -/
def loginFailMsg : String := "بيانات الدخول غير صحيحة"

/-- The flash message for a duplicate username (src/app.py line 114). -/
def dupUserMsg : String := "اسم المستخدم موجود بالفعل"

/-- The flash message for a successfully added doctor (src/app.py line 120). -/
def doctorAddedMsg : String := "تم إضافة الدكتور بنجاح"

/-- Autoincrement primary key for a Doctor insert: 1 + max existing id. -/
def nextDoctorRowId (l : List Doctor) : Nat :=
  l.foldr (fun d m => max d.id m) 0 + 1

/-- Autoincrement primary key for a Patient insert: 1 + max existing id. -/
def nextPatientRowId (l : List Patient) : Nat :=
  l.foldr (fun p m => max p.id m) 0 + 1

/-- Does `needle` occur at the start of `hay`? (character lists) -/
def startsWithL : List Char → List Char → Bool
  | [], _ => true
  | _ :: _, [] => false
  | a :: as, b :: bs => a == b && startsWithL as bs

/-- Substring test on character lists: does `needle` occur contiguously inside
    `hay`?  This embeds the `.contains` column operator used by the patient
    search (src/app.py line 84), i.e. SQL LIKE with the term in the middle. -/
def isSub (needle : List Char) : List Char → Bool
  | [] => needle.isEmpty
  | c :: rest => startsWithL needle (c :: rest) || isSub needle rest

/-- Substring test on strings. -/
def substrOf (needle hay : String) : Bool :=
  isSub needle.data hay.data

/-- Newest-first ordering on patients: `a` comes no later than `b` when `a`'s
    created_at is at least `b`'s (ORDER BY created_at DESC, line 85/89). -/
def newerEq (a b : Patient) : Prop := b.created_at ≤ a.created_at

instance : DecidableRel newerEq := fun a b => Nat.decLe b.created_at a.created_at

instance : IsTotal Patient newerEq := ⟨fun a b => Nat.le_total b.created_at a.created_at⟩

instance : IsTrans Patient newerEq := ⟨fun _ _ _ h1 h2 => Nat.le_trans h2 h1⟩

/-- ORDER BY created_at DESC, modelled as a sort into newest-first order. -/
def sortNewestFirst (l : List Patient) : List Patient :=
  List.insertionSort newerEq l

/-- The patient query of the GET /patients view (src/app.py lines 80-89):
    `search_term = request.args.get('search')` followed by a Python truthiness
    test `if search_term:` — a missing parameter and the empty string both take
    the unfiltered branch.  With a non-empty term, rows of the current doctor
    whose name or patient_id contains the term; otherwise all rows of the
    current doctor; both ordered newest-first by created_at. -/
def patientsQuery (s : Store) (did : Nat) (q : Option String) : List Patient :=
  match q with
  | some t =>
    if t == "" then
      sortNewestFirst (s.patients.filter (fun p => p.doctor_id == some did))
    else
      sortNewestFirst (s.patients.filter
        (fun p => p.doctor_id == some did &&
          (substrOf t p.name || substrOf t p.patient_id)))
  | none => sortNewestFirst (s.patients.filter (fun p => p.doctor_id == some did))

/-- The `/` login handler (src/app.py lines 48-62).  `check h pw` embeds
    `bcrypt.check_password_hash(h, pw)`.  Note the source's short-circuit
    `if not user or not bcrypt.check_password_hash(...)`: when no user matches,
    `request.form["password"]` is never read. -/
def login (s : Store) (sess : Option Nat) (m : Method) (form : Form)
    (check : String → String → Bool) : HResult :=
  match currentUser s sess with
  | some _ => ⟨.redirect "dashboard", s, [], sess⟩
  | none =>
    match m with
    | .post =>
      match formGet form "username" with
      | none => ⟨.badRequest "username", s, [], sess⟩
      | some u =>
        match s.doctors.find? (fun d => d.username == u) with
        | none => ⟨.redirect "login", s, [loginFailMsg], sess⟩
        | some user =>
          match formGet form "password" with
          | none => ⟨.badRequest "password", s, [], sess⟩
          | some pw =>
            if check user.password_hash pw then
              ⟨.redirect "dashboard", s, [], some user.id⟩
            else
              ⟨.redirect "login", s, [loginFailMsg], sess⟩
    | .get => ⟨.render .loginPage, s, [], sess⟩

/-- The /dashboard handler (src/app.py lines 64-73). -/
def dashboard (s : Store) (sess : Option Nat) : HResult :=
  match currentUser s sess with
  | none => ⟨.redirect "login", s, [], sess⟩
  | some cu =>
    if cu.username == "admin" then
      ⟨.render (.dashboardPage cu
        (some (s.doctors.filter (fun d => !(d.username == "admin"))))), s, [], sess⟩
    else
      ⟨.render (.dashboardPage cu none), s, [], sess⟩

/-- The /patients handler (src/app.py lines 75-100).  `pid` embeds the fresh
    `str(uuid.uuid4())` default, `now` the `datetime.utcnow` default.  The
    patient list is computed before the method dispatch, as in the source. -/
def patients (s : Store) (sess : Option Nat) (m : Method) (q : Option String)
    (form : Form) (pid : String) (now : Nat) : HResult :=
  match currentUser s sess with
  | none => ⟨.redirect "login", s, [], sess⟩
  | some cu =>
    let patient_list := patientsQuery s cu.id q
    match m with
    | .post =>
      match formGet form "name" with
      | none => ⟨.badRequest "name", s, [], sess⟩
      | some name =>
        match formGet form "notes" with
        | none => ⟨.badRequest "notes", s, [], sess⟩
        | some notes =>
          let p : Patient :=
            ⟨nextPatientRowId s.patients, pid, name, notes, now, some cu.id⟩
          ⟨.redirect "patients", { s with patients := s.patients ++ [p] },
            ["تم إضافة المريض بنجاح. رقم المريض: " ++ pid], sess⟩
    | .get => ⟨.render (.patientsPage patient_list), s, [], sess⟩

/-- The /add_doctor handler (src/app.py lines 102-124).  `hashFn pw` embeds
    `bcrypt.generate_password_hash(pw).decode("utf-8")`.  On a duplicate
    username the handler flashes and falls through to the roster render; on
    success it inserts and redirects to the dashboard. -/
def add_doctor (s : Store) (sess : Option Nat) (m : Method) (form : Form)
    (hashFn : String → String) (now : Nat) : HResult :=
  match currentUser s sess with
  | none => ⟨.redirect "login", s, [], sess⟩
  | some cu =>
    if cu.username == "admin" then
      match m with
      | .post =>
        match formGet form "username" with
        | none => ⟨.badRequest "username", s, [], sess⟩
        | some username =>
          match formGet form "full_name" with
          | none => ⟨.badRequest "full_name", s, [], sess⟩
          | some full_name =>
            match formGet form "specialty" with
            | none => ⟨.badRequest "specialty", s, [], sess⟩
            | some specialty =>
              match formGet form "password" with
              | none => ⟨.badRequest "password", s, [], sess⟩
              | some password =>
                if s.doctors.any (fun d => d.username == username) then
                  ⟨.render (.addDoctorPage
                      (s.doctors.filter (fun d => !(d.username == "admin")))),
                    s, [dupUserMsg], sess⟩
                else
                  ⟨.redirect "dashboard",
                    { s with doctors := s.doctors ++
                      [⟨nextDoctorRowId s.doctors, username, hashFn password,
                        some full_name, some specialty, now⟩] },
                    [doctorAddedMsg], sess⟩
      | .get =>
        ⟨.render (.addDoctorPage
            (s.doctors.filter (fun d => !(d.username == "admin")))), s, [], sess⟩
    else ⟨.redirect "login", s, [], sess⟩

/-- The /logout handler (src/app.py lines 126-129). -/
def logout (s : Store) (sess : Option Nat) : HResult :=
  ⟨.redirect "login", s, [], none⟩

/-- The bootstrap block (src/app.py lines 132-138): if no Doctor with username
    "admin" exists, insert one with the fixed default password "admin123". -/
def bootstrap (s : Store) (hashFn : String → String) (now : Nat) : Store :=
  if s.doctors.any (fun d => d.username == "admin") then s
  else { s with doctors := s.doctors ++
    [⟨nextDoctorRowId s.doctors, "admin", hashFn "admin123", some "Admin", none, now⟩] }

/-- Number of Doctor rows whose username is "admin". -/
def countAdmin (s : Store) : Nat :=
  (s.doctors.filter (fun d => d.username == "admin")).length

/-- Database URL normalization (src/app.py lines 13-15): Python's
    `str.replace(old, new, 1)` — replace the first occurrence of `old`. -/
def replaceFirst (old new : List Char) : List Char → List Char
  | [] => []
  | c :: rest =>
    if startsWithL old (c :: rest) then new ++ (c :: rest).drop old.length
    else c :: replaceFirst old new rest

/-- `db_url` computation (src/app.py lines 13-15): if the configured value
    starts with "postgres://", replace the first occurrence of that substring
    with "postgresql://"; otherwise use it unchanged. -/
def normalizeDbUrl (raw : String) : String :=
  if startsWithL "postgres://".data raw.data then
    ⟨replaceFirst "postgres://".data "postgresql://".data raw.data⟩
  else raw

/-- Ownership invariant: every Patient row references an existing Doctor. -/
def ownInv (s : Store) : Prop :=
  ∀ p ∈ s.patients, ∃ d ∈ s.doctors, p.doctor_id = some d.id

/-- The membership predicate the specification ascribes to the /patients
    listing: owned by the doctor and, when a search term was submitted, name
    OR public patient_id contains the term as a substring.  Written from the
    spec's words, to be compared with `patientsQuery`, which is derived from
    the source. -/
def specListingPred (did : Nat) (q : Option String) (p : Patient) : Bool :=
  p.doctor_id == some did &&
    (match q with
     | none => true
     | some t => substrOf t p.name || substrOf t p.patient_id)

/- ===== Helper lemmas ===== -/

theorem substrOf_empty (x : String) : substrOf "" x = true := by
  show isSub [] x.data = true
  induction x.data with
  | nil => rfl
  | cons c rest ih => simp [isSub, startsWithL]

theorem replaceFirst_of_startsWith (old new l : List Char) (h0 : old ≠ [])
    (h : startsWithL old l = true) :
    replaceFirst old new l = new ++ l.drop old.length := by
  cases l with
  | nil =>
    cases old with
    | nil => exact absurd rfl h0
    | cons a as => simp [startsWithL] at h
  | cons c rest => simp [replaceFirst, h]

theorem mem_doctors_of_currentUser (s : Store) (sess : Option Nat) (cu : Doctor)
    (h : currentUser s sess = some cu) : cu ∈ s.doctors := by
  cases sess with
  | none => simp [currentUser] at h
  | some i =>
    simp only [currentUser, Option.bind] at h
    exact List.mem_of_find?_eq_some h

theorem currentUser_doctors_append (s : Store) (ds : List Doctor) (ps : List Patient)
    (sess : Option Nat) (cu : Doctor) (h : currentUser s sess = some cu) :
    currentUser ⟨s.doctors ++ ds, ps⟩ sess = some cu := by
  cases sess with
  | none => simp [currentUser] at h
  | some i =>
    simp only [currentUser, Option.bind] at h ⊢
    rw [List.find?_append, h]
    rfl

/-- C3: anonymous requests to /dashboard, /patients and /add_doctor redirect
    to the login page and leave the store (and session and flashes) untouched,
    for every method and request payload. -/
theorem anonymous_access_redirects (s : Store) (sess : Option Nat)
    (hanon : currentUser s sess = none) (m : Method) (q : Option String)
    (form : Form) (pid : String) (now : Nat) (hashFn : String → String) :
    dashboard s sess = ⟨.redirect "login", s, [], sess⟩
  ∧ patients s sess m q form pid now = ⟨.redirect "login", s, [], sess⟩
  ∧ add_doctor s sess m form hashFn now = ⟨.redirect "login", s, [], sess⟩ := by
  refine ⟨?_, ?_, ?_⟩ <;> simp [dashboard, patients, add_doctor, hanon]

/-- C3 witness: the anonymous session on an empty store. -/
theorem anonymous_access_redirects_w :
    dashboard ⟨[], []⟩ none = ⟨.redirect "login", ⟨[], []⟩, [], none⟩
  ∧ patients ⟨[], []⟩ none .get none [] "p" 0 = ⟨.redirect "login", ⟨[], []⟩, [], none⟩
  ∧ add_doctor ⟨[], []⟩ none .get [] (fun x => x) 0
      = ⟨.redirect "login", ⟨[], []⟩, [], none⟩ :=
  anonymous_access_redirects ⟨[], []⟩ none rfl .get none [] "p" 0 (fun x => x)

/-- C7: an authenticated doctor whose username is not "admin" is redirected to
    the login page by /add_doctor, with no page rendered, no flash, and the
    store unchanged, for every method and form. -/
theorem nonadmin_add_doctor_redirects (s : Store) (sess : Option Nat) (cu : Doctor)
    (hcu : currentUser s sess = some cu) (hadm : cu.username ≠ "admin")
    (m : Method) (form : Form) (hashFn : String → String) (now : Nat) :
    add_doctor s sess m form hashFn now = ⟨.redirect "login", s, [], sess⟩ := by
  simp [add_doctor, hcu, hadm]

/-- C7 witness: a non-admin doctor hitting /add_doctor with a full form. -/
theorem nonadmin_add_doctor_redirects_w :
    add_doctor ⟨[⟨1, "dr.smith", "h", none, none, 0⟩], []⟩ (some 1) .post
        [("username", "x"), ("full_name", "y"), ("specialty", "z"), ("password", "w")]
        (fun x => x) 3
      = ⟨.redirect "login", ⟨[⟨1, "dr.smith", "h", none, none, 0⟩], []⟩, [], some 1⟩ :=
  nonadmin_add_doctor_redirects ⟨[⟨1, "dr.smith", "h", none, none, 0⟩], []⟩ (some 1)
    ⟨1, "dr.smith", "h", none, none, 0⟩ rfl (by decide) .post
    [("username", "x"), ("full_name", "y"), ("specialty", "z"), ("password", "w")]
    (fun x => x) 3

/-- C9: a DATABASE_URL value starting with "postgres://" has exactly that
    first prefix occurrence rewritten to "postgresql://"; any other value is
    used unchanged. -/
theorem db_url_normalization (raw : String) :
    (startsWithL "postgres://".data raw.data = true →
      (normalizeDbUrl raw).data
        = "postgresql://".data ++ raw.data.drop ("postgres://".data).length)
  ∧ (startsWithL "postgres://".data raw.data = false → normalizeDbUrl raw = raw) := by
  constructor
  · intro h
    simp only [normalizeDbUrl, h, if_true]
    exact congrArg String.data
      (congrArg String.mk (replaceFirst_of_startsWith _ _ _ (by decide) h)) |>.trans rfl
  · intro h
    simp [normalizeDbUrl, h]

/-- C9 witness: a legacy postgres URL is rewritten, a sqlite URL is unchanged. -/
theorem db_url_normalization_w :
    (normalizeDbUrl "postgres://db").data
      = "postgresql://".data ++ "postgres://db".data.drop ("postgres://".data).length
  ∧ normalizeDbUrl "sqlite:///clinic.db" = "sqlite:///clinic.db" :=
  ⟨(db_url_normalization "postgres://db").1 (by decide),
   (db_url_normalization "sqlite:///clinic.db").2 (by decide)⟩

/-- C5: starting from any store whose username-uniqueness constraint holds for
    "admin" (at most one admin row, as the unique column enforces), running the
    bootstrap block twice leaves exactly one Doctor with username "admin". -/
theorem bootstrap_idempotent_admin (s : Store) (hashFn : String → String) (t1 t2 : Nat)
    (huniq : countAdmin s ≤ 1) :
    countAdmin (bootstrap (bootstrap s hashFn t1) hashFn t2) = 1 := by
  by_cases h : s.doctors.any (fun d => d.username == "admin") = true
  · have hid : bootstrap s hashFn t1 = s := by simp [bootstrap, h]
    have hid2 : bootstrap s hashFn t2 = s := by simp [bootstrap, h]
    rw [hid, hid2]
    obtain ⟨d, hd, hdu⟩ := List.any_eq_true.mp h
    have hmem : d ∈ s.doctors.filter (fun d => d.username == "admin") :=
      List.mem_filter.mpr ⟨hd, hdu⟩
    have hpos : 0 < countAdmin s := List.length_pos_of_mem hmem
    omega
  · have h' : s.doctors.any (fun d => d.username == "admin") = false := by
      simpa using h
    have h0 : s.doctors.filter (fun d => d.username == "admin") = [] := by
      rw [List.filter_eq_nil_iff]
      intro a ha hpa
      rw [List.any_eq_false] at h'
      exact h' a ha hpa
    have hb1 : bootstrap s hashFn t1 = { s with doctors := s.doctors ++
        [⟨nextDoctorRowId s.doctors, "admin", hashFn "admin123", some "Admin", none, t1⟩] } := by
      simp [bootstrap, h']
    rw [hb1]
    have h2 : (s.doctors ++
        [(⟨nextDoctorRowId s.doctors, "admin", hashFn "admin123", some "Admin", none, t1⟩ : Doctor)]).any
          (fun d => d.username == "admin") = true := by
      simp [List.any_append]
    simp [bootstrap, h2, countAdmin, List.filter_append, h0]

/-- C5 witness: bootstrap twice from the empty store yields one admin row. -/
theorem bootstrap_idempotent_admin_w :
    countAdmin (bootstrap (bootstrap ⟨[], []⟩ (fun x => x) 0) (fun x => x) 1) = 1 :=
  bootstrap_idempotent_admin ⟨[], []⟩ (fun x => x) 0 1 (by decide)

/-- C6: a login POST with an unknown username and a login POST with a known
    username but a non-verifying password produce the identical observable
    outcome: the same single generic flash message, a redirect back to the
    login page, an unchanged store and an unchanged session. -/
theorem login_failure_indistinguishable (s : Store) (sess : Option Nat)
    (hanon : currentUser s sess = none) (u pw : String)
    (check : String → String → Bool)
    (hfail : s.doctors.find? (fun d => d.username == u) = none
      ∨ ∃ d, s.doctors.find? (fun d => d.username == u) = some d
          ∧ check d.password_hash pw = false) :
    login s sess .post [("username", u), ("password", pw)] check
      = ⟨.redirect "login", s, [loginFailMsg], sess⟩ := by
  have h1 : formGet [("username", u), ("password", pw)] "username" = some u := rfl
  have h2 : formGet [("username", u), ("password", pw)] "password" = some pw := rfl
  rcases hfail with h | ⟨d, hf, hc⟩
  · simp [login, hanon, h1, h]
  · simp [login, hanon, h1, h2, hf, hc]

/-- C6 witness: the unknown-username case and the wrong-password case on a
    concrete one-doctor store give that same outcome. -/
theorem login_failure_indistinguishable_w :
    login ⟨[⟨1, "admin", "h", some "Admin", none, 0⟩], []⟩ none .post
        [("username", "ghost"), ("password", "x")] (fun _ _ => false)
      = ⟨.redirect "login", ⟨[⟨1, "admin", "h", some "Admin", none, 0⟩], []⟩,
         [loginFailMsg], none⟩
  ∧ login ⟨[⟨1, "admin", "h", some "Admin", none, 0⟩], []⟩ none .post
        [("username", "admin"), ("password", "x")] (fun _ _ => false)
      = ⟨.redirect "login", ⟨[⟨1, "admin", "h", some "Admin", none, 0⟩], []⟩,
         [loginFailMsg], none⟩ :=
  ⟨login_failure_indistinguishable ⟨[⟨1, "admin", "h", some "Admin", none, 0⟩], []⟩ none rfl
      "ghost" "x" (fun _ _ => false) (Or.inl rfl),
   login_failure_indistinguishable ⟨[⟨1, "admin", "h", some "Admin", none, 0⟩], []⟩ none rfl
      "admin" "x" (fun _ _ => false)
      (Or.inr ⟨⟨1, "admin", "h", some "Admin", none, 0⟩, rfl, rfl⟩)⟩

/-- C10: a POST to /patients by an authenticated doctor whose form lacks the
    "name" or "notes" key, and a POST to /add_doctor by the admin whose form
    lacks any of "username", "full_name", "specialty" or "password", fail with
    a bad-request error, leaving the store, the flashes and the session
    unchanged. -/
theorem missing_form_key_is_safe (s : Store) (sess : Option Nat) (q : Option String)
    (form : Form) (pid : String) (now : Nat) (hashFn : String → String) (cu : Doctor)
    (hcu : currentUser s sess = some cu) :
    ((formGet form "name" = none ∨ formGet form "notes" = none) →
      ∃ k, patients s sess .post q form pid now = ⟨.badRequest k, s, [], sess⟩)
  ∧ (cu.username = "admin" →
     (formGet form "username" = none ∨ formGet form "full_name" = none ∨
      formGet form "specialty" = none ∨ formGet form "password" = none) →
      ∃ k, add_doctor s sess .post form hashFn now = ⟨.badRequest k, s, [], sess⟩) := by
  constructor
  · intro h
    rcases hname : formGet form "name" with _ | v
    · exact ⟨"name", by simp [patients, hcu, hname]⟩
    · rcases hnotes : formGet form "notes" with _ | w
      · exact ⟨"notes", by simp [patients, hcu, hname, hnotes]⟩
      · rcases h with h | h <;> simp_all
  · intro hadm h
    rcases hu : formGet form "username" with _ | a
    · exact ⟨"username", by simp [add_doctor, hcu, hadm, hu]⟩
    · rcases hf : formGet form "full_name" with _ | b
      · exact ⟨"full_name", by simp [add_doctor, hcu, hadm, hu, hf]⟩
      · rcases hs : formGet form "specialty" with _ | c
        · exact ⟨"specialty", by simp [add_doctor, hcu, hadm, hu, hf, hs]⟩
        · rcases hp : formGet form "password" with _ | e
          · exact ⟨"password", by simp [add_doctor, hcu, hadm, hu, hf, hs, hp]⟩
          · rcases h with h | h | h | h <;> simp_all

/-- C10 witness: an empty form on a concrete admin store fails both handlers
    with a bad-request error and no change to the store. -/
theorem missing_form_key_is_safe_w :
    (∃ k, patients ⟨[⟨1, "admin", "h", some "Admin", none, 0⟩], []⟩ (some 1) .post none [] "p" 2
      = ⟨.badRequest k, ⟨[⟨1, "admin", "h", some "Admin", none, 0⟩], []⟩, [], some 1⟩)
  ∧ (∃ k, add_doctor ⟨[⟨1, "admin", "h", some "Admin", none, 0⟩], []⟩ (some 1) .post []
        (fun x => x) 2
      = ⟨.badRequest k, ⟨[⟨1, "admin", "h", some "Admin", none, 0⟩], []⟩, [], some 1⟩) :=
  ⟨(missing_form_key_is_safe ⟨[⟨1, "admin", "h", some "Admin", none, 0⟩], []⟩ (some 1) none []
      "p" 2 (fun x => x) ⟨1, "admin", "h", some "Admin", none, 0⟩ rfl).1 (Or.inl rfl),
   (missing_form_key_is_safe ⟨[⟨1, "admin", "h", some "Admin", none, 0⟩], []⟩ (some 1) none []
      "p" 2 (fun x => x) ⟨1, "admin", "h", some "Admin", none, 0⟩ rfl).2 rfl (Or.inl rfl)⟩

/-- C2 counterexample: on a concrete one-doctor store, a POST to /patients with
    name equal to the empty string does not fail: it creates a Patient row with
    empty name and redirects, contradicting the claimed ValidationError. -/
theorem empty_name_creates_patient_cex :
    (patients ⟨[⟨1, "doc", "h", none, none, 0⟩], []⟩ (some 1) .post none
        [("name", ""), ("notes", "")] "pid-1" 7).response = .redirect "patients"
  ∧ (patients ⟨[⟨1, "doc", "h", none, none, 0⟩], []⟩ (some 1) .post none
        [("name", ""), ("notes", "")] "pid-1" 7).store.patients
      = [⟨1, "pid-1", "", "", 7, some 1⟩] :=
  ⟨rfl, rfl⟩

/-- C2 amended: the handler performs no emptiness validation on the submitted
    name: a POST to /patients by an authenticated doctor with an empty name
    succeeds, appending a Patient row with empty name owned by that doctor and
    redirecting to the patients view. -/
theorem empty_name_no_validation (s : Store) (sess : Option Nat) (q : Option String)
    (notes : String) (pid : String) (now : Nat) (cu : Doctor)
    (hcu : currentUser s sess = some cu) :
    patients s sess .post q [("name", ""), ("notes", notes)] pid now
      = ⟨.redirect "patients",
         { s with patients := s.patients ++
            [⟨nextPatientRowId s.patients, pid, "", notes, now, some cu.id⟩] },
         ["تم إضافة المريض بنجاح. رقم المريض: " ++ pid], sess⟩ := by
  have h1 : formGet [("name", ""), ("notes", notes)] "name" = some "" := rfl
  have h2 : formGet [("name", ""), ("notes", notes)] "notes" = some notes := rfl
  simp [patients, hcu, h1, h2]

/-- C2 amended witness: the concrete empty-name POST evaluated. -/
theorem empty_name_no_validation_w :
    patients ⟨[⟨1, "doc", "h", none, none, 0⟩], []⟩ (some 1) .post none
        [("name", ""), ("notes", "n")] "pid-1" 7
      = ⟨.redirect "patients",
         { Store.mk [⟨1, "doc", "h", none, none, 0⟩] [] with patients :=
            [] ++ [⟨nextPatientRowId [], "pid-1", "", "n", 7, some 1⟩] },
         ["تم إضافة المريض بنجاح. رقم المريض: " ++ "pid-1"], some 1⟩ :=
  empty_name_no_validation ⟨[⟨1, "doc", "h", none, none, 0⟩], []⟩ (some 1) none "n" "pid-1" 7
    ⟨1, "doc", "h", none, none, 0⟩ rfl

theorem login_store_eq (s : Store) (sess : Option Nat) (m : Method) (form : Form)
    (check : String → String → Bool) : (login s sess m form check).store = s := by
  unfold login
  (repeat' split) <;> rfl

theorem dashboard_store_eq (s : Store) (sess : Option Nat) :
    (dashboard s sess).store = s := by
  unfold dashboard
  (repeat' split) <;> rfl

/-- C8 counterexample: the Patient.doctor_id column (src/app.py line 41)
    declares no NOT NULL constraint, so a row with a null doctor_id passes the
    storage-level row checks: doctor_id is not "required (non-null)" at the
    schema level. -/
theorem patient_doctor_id_nullable_cex :
    patientRowOk (some "X") none = true ∧ (none : Option Nat).isSome = false :=
  ⟨rfl, rfl⟩

/-- C8 amended: although the schema leaves doctor_id nullable, every operation
    of the application preserves the ownership invariant: if every Patient row
    references an existing Doctor, then after any request — login, dashboard,
    patients (list, search or create), add_doctor, logout — and after the
    bootstrap block, every Patient row still references an existing Doctor;
    the only patient-creating path stamps the authenticated doctor's id. -/
theorem patient_ownership_preserved (s : Store) (sess : Option Nat) (m : Method)
    (q : Option String) (form : Form) (pid : String) (now : Nat)
    (check : String → String → Bool) (hashFn : String → String)
    (hinv : ownInv s) :
    ownInv (login s sess m form check).store
  ∧ ownInv (dashboard s sess).store
  ∧ ownInv (patients s sess m q form pid now).store
  ∧ ownInv (add_doctor s sess m form hashFn now).store
  ∧ ownInv (logout s sess).store
  ∧ ownInv (bootstrap s hashFn now) := by
  refine ⟨?_, ?_, ?_, ?_, ?_, ?_⟩
  · rw [login_store_eq]; exact hinv
  · rw [dashboard_store_eq]; exact hinv
  · rcases hc : currentUser s sess with _ | cu
    · simpa [patients, hc] using hinv
    · cases m with
      | get => simpa [patients, hc] using hinv
      | post =>
        rcases h1 : formGet form "name" with _ | nm
        · simpa [patients, hc, h1] using hinv
        · rcases h2 : formGet form "notes" with _ | nt
          · simpa [patients, hc, h1, h2] using hinv
          · have hcud := mem_doctors_of_currentUser s sess cu hc
            simp only [patients, hc, h1, h2, ownInv]
            intro p hp
            simp only [List.mem_append] at hp
            rcases hp with hp | hp
            · exact hinv p hp
            · have hpe : p = ⟨nextPatientRowId s.patients, pid, nm, nt, now, some cu.id⟩ := by
                simpa using hp
              exact ⟨cu, hcud, by rw [hpe]⟩
  · rcases hc : currentUser s sess with _ | cu
    · simpa [add_doctor, hc] using hinv
    · by_cases hadm : cu.username = "admin"
      · cases m with
        | get => simpa [add_doctor, hc, hadm] using hinv
        | post =>
          rcases h1 : formGet form "username" with _ | a
          · simpa [add_doctor, hc, hadm, h1] using hinv
          · rcases h2 : formGet form "full_name" with _ | b
            · simpa [add_doctor, hc, hadm, h1, h2] using hinv
            · rcases h3 : formGet form "specialty" with _ | c2
              · simpa [add_doctor, hc, hadm, h1, h2, h3] using hinv
              · rcases h4 : formGet form "password" with _ | d4
                · simpa [add_doctor, hc, hadm, h1, h2, h3, h4] using hinv
                · by_cases hdup : s.doctors.any (fun d => d.username == a) = true
                  · simpa [add_doctor, hc, hadm, h1, h2, h3, h4, hdup] using hinv
                  · simp only [add_doctor, hc, hadm, h1, h2, h3, h4, ownInv]
                    rw [if_pos (by simp [hadm]), if_neg hdup]
                    intro p hp
                    obtain ⟨d, hd, hpd⟩ := hinv p hp
                    exact ⟨d, List.mem_append_left _ hd, hpd⟩
      · simpa [add_doctor, hc, hadm] using hinv
  · simpa [logout] using hinv
  · by_cases h : s.doctors.any (fun d => d.username == "admin") = true
    · simpa [bootstrap, h] using hinv
    · simp only [bootstrap]
      rw [if_neg h]
      intro p hp
      obtain ⟨d, hd, hpd⟩ := hinv p hp
      exact ⟨d, List.mem_append_left _ hd, hpd⟩

/-- C8 amended witness: preservation applied on a concrete one-doctor,
    one-patient store. -/
theorem patient_ownership_preserved_w :
    ownInv (login ⟨[⟨1, "doc", "h", none, none, 0⟩], [⟨1, "p1", "Jane", "", 2, some 1⟩]⟩
      (some 1) .post [("name", "Bob"), ("notes", "")] (fun _ _ => true)).store
  ∧ ownInv (dashboard ⟨[⟨1, "doc", "h", none, none, 0⟩], [⟨1, "p1", "Jane", "", 2, some 1⟩]⟩
      (some 1)).store
  ∧ ownInv (patients ⟨[⟨1, "doc", "h", none, none, 0⟩], [⟨1, "p1", "Jane", "", 2, some 1⟩]⟩
      (some 1) .post none [("name", "Bob"), ("notes", "")] "p2" 5).store
  ∧ ownInv (add_doctor ⟨[⟨1, "doc", "h", none, none, 0⟩], [⟨1, "p1", "Jane", "", 2, some 1⟩]⟩
      (some 1) .post [("name", "Bob"), ("notes", "")] (fun x => x) 5).store
  ∧ ownInv (logout ⟨[⟨1, "doc", "h", none, none, 0⟩], [⟨1, "p1", "Jane", "", 2, some 1⟩]⟩
      (some 1)).store
  ∧ ownInv (bootstrap ⟨[⟨1, "doc", "h", none, none, 0⟩], [⟨1, "p1", "Jane", "", 2, some 1⟩]⟩
      (fun x => x) 5) :=
  patient_ownership_preserved
    ⟨[⟨1, "doc", "h", none, none, 0⟩], [⟨1, "p1", "Jane", "", 2, some 1⟩]⟩
    (some 1) .post none [("name", "Bob"), ("notes", "")] "p2" 5 (fun _ _ => true) (fun x => x)
    (by intro p hp; simp at hp; exact ⟨⟨1, "doc", "h", none, none, 0⟩, by simp, by simp [hp]⟩)

/-- C1: for an authenticated doctor, GET /patients renders exactly the rows
    selected by the specification's predicate — the doctor's own rows, further
    narrowed to name-or-patient_id substring matches when a search term is
    given — ordered newest-first by created_at, with no other doctor's patient
    ever present, and with no change to the store. -/
theorem patients_listing_correct (s : Store) (sess : Option Nat) (q : Option String)
    (form : Form) (pid : String) (now : Nat) (cu : Doctor)
    (hcu : currentUser s sess = some cu) :
    patients s sess .get q form pid now
      = ⟨.render (.patientsPage (patientsQuery s cu.id q)), s, [], sess⟩
  ∧ List.Perm (patientsQuery s cu.id q) (s.patients.filter (specListingPred cu.id q))
  ∧ List.Sorted newerEq (patientsQuery s cu.id q)
  ∧ ∀ p ∈ patientsQuery s cu.id q, p.doctor_id = some cu.id := by
  have hperm : List.Perm (patientsQuery s cu.id q)
      (s.patients.filter (specListingPred cu.id q)) := by
    match q with
    | none =>
      have hp : specListingPred cu.id none = fun p => p.doctor_id == some cu.id := by
        funext p; simp [specListingPred]
      rw [hp]
      exact List.perm_insertionSort _ _
    | some t =>
      by_cases ht : t = ""
      · subst ht
        have hp : specListingPred cu.id (some "")
            = fun p => p.doctor_id == some cu.id := by
          funext p; simp [specListingPred, substrOf_empty]
        rw [hp]
        have hq : patientsQuery s cu.id (some "")
            = sortNewestFirst (s.patients.filter (fun p => p.doctor_id == some cu.id)) := by
          simp [patientsQuery]
        rw [hq]
        exact List.perm_insertionSort _ _
      · have hp : specListingPred cu.id (some t) = fun p =>
            p.doctor_id == some cu.id && (substrOf t p.name || substrOf t p.patient_id) := by
          funext p; simp [specListingPred]
        rw [hp]
        simp only [patientsQuery]
        rw [if_neg (by simpa using ht)]
        exact List.perm_insertionSort _ _
  have hsort : List.Sorted newerEq (patientsQuery s cu.id q) := by
    match q with
    | none => exact List.sorted_insertionSort _ _
    | some t =>
      by_cases ht : t = ""
      · subst ht
        have hq : patientsQuery s cu.id (some "")
            = sortNewestFirst (s.patients.filter (fun p => p.doctor_id == some cu.id)) := by
          simp [patientsQuery]
        rw [hq]
        exact List.sorted_insertionSort _ _
      · simp only [patientsQuery]
        rw [if_neg (by simpa using ht)]
        exact List.sorted_insertionSort _ _
  refine ⟨by simp [patients, hcu], hperm, hsort, ?_⟩
  intro p hp
  have hp2 : p ∈ s.patients.filter (specListingPred cu.id q) := hperm.mem_iff.mp hp
  have hpred := (List.mem_filter.mp hp2).2
  simp only [specListingPred, Bool.and_eq_true] at hpred
  simpa using hpred.1

/-- C1 witness: a doctor with one own patient and one foreign patient in the
    store, searching for "a". -/
theorem patients_listing_correct_w :
    patients ⟨[⟨1, "doc", "h", none, none, 0⟩],
        [⟨1, "aaa", "Ahmed", "", 5, some 1⟩, ⟨2, "bbb", "Sara", "", 3, some 2⟩]⟩
        (some 1) .get (some "a") [] "p" 9
      = ⟨.render (.patientsPage (patientsQuery ⟨[⟨1, "doc", "h", none, none, 0⟩],
          [⟨1, "aaa", "Ahmed", "", 5, some 1⟩, ⟨2, "bbb", "Sara", "", 3, some 2⟩]⟩ 1 (some "a"))),
         ⟨[⟨1, "doc", "h", none, none, 0⟩],
          [⟨1, "aaa", "Ahmed", "", 5, some 1⟩, ⟨2, "bbb", "Sara", "", 3, some 2⟩]⟩, [], some 1⟩
  ∧ List.Perm (patientsQuery ⟨[⟨1, "doc", "h", none, none, 0⟩],
        [⟨1, "aaa", "Ahmed", "", 5, some 1⟩, ⟨2, "bbb", "Sara", "", 3, some 2⟩]⟩ 1 (some "a"))
      ((Store.mk [⟨1, "doc", "h", none, none, 0⟩]
        [⟨1, "aaa", "Ahmed", "", 5, some 1⟩, ⟨2, "bbb", "Sara", "", 3, some 2⟩]).patients.filter
          (specListingPred 1 (some "a")))
  ∧ List.Sorted newerEq (patientsQuery ⟨[⟨1, "doc", "h", none, none, 0⟩],
        [⟨1, "aaa", "Ahmed", "", 5, some 1⟩, ⟨2, "bbb", "Sara", "", 3, some 2⟩]⟩ 1 (some "a"))
  ∧ ∀ p ∈ patientsQuery ⟨[⟨1, "doc", "h", none, none, 0⟩],
        [⟨1, "aaa", "Ahmed", "", 5, some 1⟩, ⟨2, "bbb", "Sara", "", 3, some 2⟩]⟩ 1 (some "a"),
      p.doctor_id = some 1 :=
  patients_listing_correct
    ⟨[⟨1, "doc", "h", none, none, 0⟩],
     [⟨1, "aaa", "Ahmed", "", 5, some 1⟩, ⟨2, "bbb", "Sara", "", 3, some 2⟩]⟩
    (some 1) (some "a") [] "p" 9 ⟨1, "doc", "h", none, none, 0⟩ rfl

/-- C4: with the admin authenticated and a fresh username, a POST to
    /add_doctor inserts the new Doctor and redirects to the dashboard; a second
    POST with the same username flashes the duplicate-username error and
    re-renders the roster page with no redirect and no insert, so across the
    two attempts the number of Doctor rows grows by exactly one. -/
theorem duplicate_username_add_doctor (s : Store) (sess : Option Nat) (cu : Doctor)
    (hcu : currentUser s sess = some cu) (hadm : cu.username = "admin")
    (u fn sp pw fn2 sp2 pw2 : String) (hashFn : String → String) (t1 t2 : Nat)
    (hfresh : s.doctors.any (fun d => d.username == u) = false) :
    add_doctor s sess .post
        [("username", u), ("full_name", fn), ("specialty", sp), ("password", pw)] hashFn t1
      = ⟨.redirect "dashboard",
         { s with doctors := s.doctors ++
            [(⟨nextDoctorRowId s.doctors, u, hashFn pw, some fn, some sp, t1⟩ : Doctor)] },
         [doctorAddedMsg], sess⟩
  ∧ add_doctor
        { s with doctors := s.doctors ++
            [(⟨nextDoctorRowId s.doctors, u, hashFn pw, some fn, some sp, t1⟩ : Doctor)] } sess .post
        [("username", u), ("full_name", fn2), ("specialty", sp2), ("password", pw2)] hashFn t2
      = ⟨.render (.addDoctorPage ((s.doctors ++
            [(⟨nextDoctorRowId s.doctors, u, hashFn pw, some fn, some sp, t1⟩ : Doctor)]).filter
              (fun d => !(d.username == "admin")))),
         { s with doctors := s.doctors ++
            [(⟨nextDoctorRowId s.doctors, u, hashFn pw, some fn, some sp, t1⟩ : Doctor)] },
         [dupUserMsg], sess⟩
  ∧ (s.doctors ++
      [(⟨nextDoctorRowId s.doctors, u, hashFn pw, some fn, some sp, t1⟩ : Doctor)]).length
      = s.doctors.length + 1 := by
  have h1 : formGet [("username", u), ("full_name", fn), ("specialty", sp),
      ("password", pw)] "username" = some u := rfl
  have h2 : formGet [("username", u), ("full_name", fn), ("specialty", sp),
      ("password", pw)] "full_name" = some fn := rfl
  have h3 : formGet [("username", u), ("full_name", fn), ("specialty", sp),
      ("password", pw)] "specialty" = some sp := rfl
  have h4 : formGet [("username", u), ("full_name", fn), ("specialty", sp),
      ("password", pw)] "password" = some pw := rfl
  have h5 : formGet [("username", u), ("full_name", fn2), ("specialty", sp2),
      ("password", pw2)] "username" = some u := rfl
  have h6 : formGet [("username", u), ("full_name", fn2), ("specialty", sp2),
      ("password", pw2)] "full_name" = some fn2 := rfl
  have h7 : formGet [("username", u), ("full_name", fn2), ("specialty", sp2),
      ("password", pw2)] "specialty" = some sp2 := rfl
  have h8 : formGet [("username", u), ("full_name", fn2), ("specialty", sp2),
      ("password", pw2)] "password" = some pw2 := rfl
  have hcu2 : currentUser
      { s with doctors := s.doctors ++
        [(⟨nextDoctorRowId s.doctors, u, hashFn pw, some fn, some sp, t1⟩ : Doctor)] } sess = some cu :=
    currentUser_doctors_append s
      [(⟨nextDoctorRowId s.doctors, u, hashFn pw, some fn, some sp, t1⟩ : Doctor)] s.patients sess cu hcu
  have hdup : (s.doctors ++
      [(⟨nextDoctorRowId s.doctors, u, hashFn pw, some fn, some sp, t1⟩ : Doctor)]).any
        (fun d => d.username == u) = true := by
    simp [List.any_append]
  refine ⟨?_, ?_, by simp⟩
  · simp [add_doctor, hcu, hadm, h1, h2, h3, h4, hfresh]
  · simp [add_doctor, hcu2, hadm, h5, h6, h7, h8, hdup]

/-- C4 witness: the admin creating "dr.smith" twice on a concrete store. -/
theorem duplicate_username_add_doctor_w :
    add_doctor ⟨[⟨1, "admin", "h", some "Admin", none, 0⟩], []⟩ (some 1) .post
        [("username", "dr.smith"), ("full_name", "S"), ("specialty", "GP"),
         ("password", "p")] (fun x => x) 1
      = ⟨.redirect "dashboard",
         { Store.mk [⟨1, "admin", "h", some "Admin", none, 0⟩] [] with doctors :=
            [⟨1, "admin", "h", some "Admin", none, 0⟩] ++
            [(⟨nextDoctorRowId [⟨1, "admin", "h", some "Admin", none, 0⟩], "dr.smith",
              (fun x => x) "p", some "S", some "GP", 1⟩ : Doctor)] },
         [doctorAddedMsg], some 1⟩
  ∧ add_doctor
        { Store.mk [⟨1, "admin", "h", some "Admin", none, 0⟩] [] with doctors :=
            [⟨1, "admin", "h", some "Admin", none, 0⟩] ++
            [(⟨nextDoctorRowId [⟨1, "admin", "h", some "Admin", none, 0⟩], "dr.smith",
              (fun x => x) "p", some "S", some "GP", 1⟩ : Doctor)] } (some 1) .post
        [("username", "dr.smith"), ("full_name", "T"), ("specialty", "X"),
         ("password", "q")] (fun x => x) 2
      = ⟨.render (.addDoctorPage (([(⟨1, "admin", "h", some "Admin", none, 0⟩ : Doctor)] ++
            [(⟨nextDoctorRowId [⟨1, "admin", "h", some "Admin", none, 0⟩], "dr.smith",
              (fun x => x) "p", some "S", some "GP", 1⟩ : Doctor)]).filter
              (fun d => !(d.username == "admin")))),
         { Store.mk [⟨1, "admin", "h", some "Admin", none, 0⟩] [] with doctors :=
            [⟨1, "admin", "h", some "Admin", none, 0⟩] ++
            [(⟨nextDoctorRowId [⟨1, "admin", "h", some "Admin", none, 0⟩], "dr.smith",
              (fun x => x) "p", some "S", some "GP", 1⟩ : Doctor)] },
         [dupUserMsg], some 1⟩
  ∧ ([(⟨1, "admin", "h", some "Admin", none, 0⟩ : Doctor)] ++
      [(⟨nextDoctorRowId [⟨1, "admin", "h", some "Admin", none, 0⟩], "dr.smith",
        (fun x => x) "p", some "S", some "GP", 1⟩ : Doctor)]).length
      = [(⟨1, "admin", "h", some "Admin", none, 0⟩ : Doctor)].length + 1 :=
  duplicate_username_add_doctor ⟨[⟨1, "admin", "h", some "Admin", none, 0⟩], []⟩ (some 1)
    ⟨1, "admin", "h", some "Admin", none, 0⟩ rfl rfl "dr.smith" "S" "GP" "p" "T" "X" "q"
    (fun x => x) 1 2 rfl

end Clinic
